import Mathlib

/-!
Verification of the NAGABOLA broadcast bot core (src/main.py): the
draft-building conversation state machine (`handle_message`, `cb_handler`,
`broadcast_cmd`, `setting_cmd`) and the fan-out dispatcher (`do_broadcast`).

The Python code is shallowly embedded: sessions, drafts and incoming
messages become Lean structures, each handler becomes a pure function from
the session (plus the message / callback data) to the new session together
with the conversational output it produces.  External collaborators (the
Postgres pool, the Telegram transport) are modelled as oracle parameters;
DB-gate/admin-gate paths, which leave the session untouched, are taken as
satisfied since every claim concerns an admin operator with a live pool.
-/

/-! ### Python string primitives

`str.strip`, `str.lower`, `str.startswith` as used by the source, modelled
over the character list of a `String` (ASCII case mapping, which covers
every literal the source compares against). -/

/-- Whitespace characters stripped by Python's `str.strip()` / matched by
regex `\s` (ASCII range). -/
def pyIsSpace (c : Char) : Bool :=
  c = ' ' || c = '\t' || c = '\n' || c = '\r' || c = '\x0b' || c = '\x0c'

/-- Strip leading and trailing whitespace from a character list. -/
def pyStripList (cs : List Char) : List Char :=
  ((cs.dropWhile pyIsSpace).reverse.dropWhile pyIsSpace).reverse

/-- Python `s.strip()`. -/
def pyStrip (s : String) : String :=
  ⟨pyStripList s.data⟩

/-- Python `s.lower()` (ASCII letters; the source only compares against
ASCII literals). -/
def pyLower (s : String) : String :=
  ⟨s.data.map Char.toLower⟩

/-- Python `s.startswith(p)`. -/
def pyStartsWith (s p : String) : Bool :=
  p.data.isPrefixOf s.data

/-- Python truthiness of an optional string: `None` and `""` are falsy. -/
def pyTruthy : Option String → Bool
  | none => false
  | some t => !(t == "")

/-! ### sanitize_welcome

Embeds `sanitize_welcome` from src/main.py: the anchored regex
`^\s*/(?:start|setting)(?:@[A-Za-z0-9_]+)?\s*` is removed from the front,
the mirrored `$`-anchored regex from the back (leftmost match), runs of
`[ \t]` are squashed to a single space, and the result is stripped. -/

/-- Regex word character `[A-Za-z0-9_]`. -/
def isWordChar (c : Char) : Bool :=
  c.isAlphanum || c = '_'

/-- Case-insensitive literal match; returns the remaining input on
success. -/
def matchCi : List Char → List Char → Option (List Char)
  | [], rest => some rest
  | _ :: _, [] => none
  | p :: ps, c :: rest => if c.toLower = p.toLower then matchCi ps rest else none

/-- Match `/(?:start|setting)` case-insensitively. -/
def matchCmdName (cs : List Char) : Option (List Char) :=
  match matchCi "/start".data cs with
  | some rest => some rest
  | none => matchCi "/setting".data cs

/-- Consume the optional `(?:@[A-Za-z0-9_]+)?` group (greedy, but the group
only matches when at least one word character follows the `@`). -/
def matchAtGroup (cs : List Char) : List Char :=
  match cs with
  | '@' :: rest => if rest.takeWhile isWordChar = [] then cs else rest.dropWhile isWordChar
  | _ => cs

/-- The `_CMD_EDGE` substitution: remove one anchored-at-start command token
(with surrounding whitespace) if present. -/
def cmdEdgeSub (cs : List Char) : List Char :=
  match matchCmdName (cs.dropWhile pyIsSpace) with
  | some rest => (matchAtGroup rest).dropWhile pyIsSpace
  | none => cs

/-- Does `_CMD_EDGE_TAIL` match starting exactly here and running to the
end of the string? -/
def tailMatchAt (cs : List Char) : Bool :=
  match matchCmdName (cs.dropWhile pyIsSpace) with
  | some rest => (matchAtGroup rest).all pyIsSpace
  | none => false

/-- The `_CMD_EDGE_TAIL` substitution: remove the leftmost end-anchored command
token if present. -/
def cmdTailSub : List Char → List Char
  | [] => []
  | c :: rest => if tailMatchAt (c :: rest) then [] else c :: cmdTailSub rest

/-- Replace runs of `[ \t]+` by a single space (`inRun` tracks whether the
previous character was part of a run). -/
def squashSpacesGo : Bool → List Char → List Char
  | _, [] => []
  | inRun, c :: rest =>
    if c = ' ' || c = '\t' then
      if inRun then squashSpacesGo true rest else ' ' :: squashSpacesGo true rest
    else c :: squashSpacesGo false rest

/-- Embeds `sanitize_welcome` from src/main.py. -/
def sanitize_welcome (s : String) : String :=
  if s = "" then ""
  else ⟨pyStripList (squashSpacesGo false (cmdTailSub (cmdEdgeSub s.data)))⟩

/-! ### Data model (src/main.py `Step`, `ButtonDef`, `BroadcastDraft`, `Session`) -/

/-- The string-tagged `Step` field of a session, as a closed enumeration
(one tag per string constant of the Python `Step` class). -/
inductive Step
  | ASK_TEXT
  | ASK_MEDIA
  | ASK_ADD_BUTTON
  | ASK_BUTTON_TEXT
  | ASK_BUTTON_URL
  | PREVIEW
  | SET_WELCOME
  | ADD_LINK_TITLE
  | ADD_LINK_URL
  | IDLE
deriving DecidableEq, Repr

/-- The `ButtonDef` dataclass.  The `text` field is annotated `str` in the
source but Python does not enforce the annotation: the value stored is
`s.temp_button_text`, an `Optional[str]`, so the faithful field type is
`Option String`. -/
structure ButtonDef where
  text : Option String
  url : String
deriving DecidableEq, Repr

/-- The `BroadcastDraft` dataclass. -/
structure BroadcastDraft where
  text : String := ""
  photo_file_id : Option String := none
  video_file_id : Option String := none
  animation_file_id : Option String := none
  buttons : List ButtonDef := []
deriving DecidableEq, Repr

/-- The `Session` dataclass (one per operator id in the `sessions` map;
`ensure_session` creates it with these defaults). -/
structure Session where
  step : Step := Step.IDLE
  draft : BroadcastDraft := {}
  temp_button_text : Option String := none
  temp_link_title : Option String := none
deriving DecidableEq, Repr

/-- An incoming Telegram message, restricted to the fields
`handle_message` reads: `text`, the library-provided `text_html` rendering,
the `photo` size list (the code takes the last element's `file_id`), and
the `video` / `animation` attachments (their `file_id`). -/
structure Msg where
  text : Option String := none
  text_html : Option String := none
  photo : List String := []
  video : Option String := none
  animation : Option String := none
deriving DecidableEq, Repr

/-! ### Condition helpers shared between the handler and its statements -/

/-- The `ASK_MEDIA` "skip" test: `msg.text and msg.text.strip().lower() == "skip"`. -/
def is_skip_text (m : Msg) : Prop :=
  pyTruthy m.text ∧ pyLower (pyStrip (m.text.getD "")) = "skip"

instance (m : Msg) : Decidable (is_skip_text m) := by
  unfold is_skip_text; exact inferInstance

/-- URL acceptance used at `ASK_BUTTON_URL` and `ADD_LINK_URL`:
`msg.text` truthy and `msg.text.strip().lower().startswith(("http://", "https://"))`. -/
def url_accepts (m : Msg) : Prop :=
  pyTruthy m.text ∧
    (pyStartsWith (pyLower (pyStrip (m.text.getD ""))) "http://"
      ∨ pyStartsWith (pyLower (pyStrip (m.text.getD ""))) "https://")

instance (m : Msg) : Decidable (url_accepts m) := by
  unfold url_accepts; exact inferInstance

/-! ### Conversation handlers -/

/-- Embeds `broadcast_cmd`: start the broadcast flow with a fresh draft
(the temp fields are not cleared by the source). -/
def broadcast_cmd (s : Session) : Session :=
  { s with step := Step.ASK_TEXT, draft := {} }

/-- Embeds `setting_cmd`: enter the welcome-text flow. -/
def setting_cmd (s : Session) : Session :=
  { s with step := Step.SET_WELCOME }

/-- Embeds `handle_message` (admin path; non-admins return before touching
the session).  The `Bool` component records whether a reply was sent to the
operator: branches of the Python chain that return without replying — in
particular an unmatched text at `ASK_ADD_BUTTON`, and any message while the
step is `PREVIEW` or `IDLE`, which fall off the end of the function — yield
`false`.  Accepted inputs at `SET_WELCOME` / `ADD_LINK_URL` additionally
write to the settings store, an external collaborator not modelled here. -/
def handle_message (s : Session) (m : Msg) : Session × Bool :=
  match s.step with
  | Step.SET_WELCOME =>
    let cleaned := sanitize_welcome (m.text.getD "")
    if cleaned = "" ∨ pyStartsWith cleaned "/"
        ∨ pyLower cleaned = "/start" ∨ pyLower cleaned = "/setting" then
      (s, true)
    else
      ({ s with step := Step.IDLE }, true)
  | Step.ASK_TEXT =>
    if ¬ pyTruthy m.text ∨ pyLower (pyStrip (m.text.getD "")) = "/broadcast" then
      (s, true)
    else
      let text_html :=
        match m.text_html with
        | some h => if h = "" then m.text.getD "" else h
        | none => m.text.getD ""
      ({ s with step := Step.ASK_MEDIA, draft := { s.draft with text := text_html } }, true)
  | Step.ASK_MEDIA =>
    if is_skip_text m then
      ({ s with step := Step.ASK_ADD_BUTTON }, true)
    else if m.photo ≠ [] then
      ({ s with
          step := Step.ASK_ADD_BUTTON,
          draft := { s.draft with
                      photo_file_id := m.photo.getLast?,
                      video_file_id := none,
                      animation_file_id := none } }, true)
    else
      match m.video with
      | some v =>
        ({ s with
            step := Step.ASK_ADD_BUTTON,
            draft := { s.draft with
                        video_file_id := some v,
                        photo_file_id := none,
                        animation_file_id := none } }, true)
      | none =>
        match m.animation with
        | some a =>
          ({ s with
              step := Step.ASK_ADD_BUTTON,
              draft := { s.draft with
                          animation_file_id := some a,
                          photo_file_id := none,
                          video_file_id := none } }, true)
        | none => (s, true)
  | Step.ASK_ADD_BUTTON =>
    if pyTruthy m.text then
      let txt := pyLower (pyStrip (m.text.getD ""))
      if txt = "ya" ∨ txt = "yes" ∨ txt = "y" then
        ({ s with step := Step.ASK_BUTTON_TEXT }, true)
      else if txt = "tidak" ∨ txt = "no" ∨ txt = "n" then
        ({ s with step := Step.PREVIEW }, true)
      else
        (s, false)
    else
      (s, false)
  | Step.ASK_BUTTON_TEXT =>
    if ¬ pyTruthy m.text then
      (s, true)
    else
      ({ s with
          temp_button_text := some (pyStrip (m.text.getD "")),
          step := Step.ASK_BUTTON_URL }, true)
  | Step.ASK_BUTTON_URL =>
    if ¬ url_accepts m then
      (s, true)
    else
      ({ s with
          draft := { s.draft with
                      buttons := s.draft.buttons
                        ++ [{ text := s.temp_button_text, url := pyStrip (m.text.getD "") }] },
          temp_button_text := none,
          step := Step.ASK_ADD_BUTTON }, true)
  | Step.ADD_LINK_TITLE =>
    if ¬ pyTruthy m.text then
      (s, true)
    else
      ({ s with
          temp_link_title := some (pyStrip (m.text.getD "")),
          step := Step.ADD_LINK_URL }, true)
  | Step.ADD_LINK_URL =>
    if ¬ url_accepts m then
      (s, true)
    else
      ({ s with temp_link_title := none, step := Step.IDLE }, true)
  | Step.PREVIEW => (s, false)
  | Step.IDLE => (s, false)

/-- Session-visible effect of a callback: either nothing beyond the
conversation, or an invocation of `do_broadcast` with the given draft. -/
inductive CbEffect
  | noop
  | dispatch (d : BroadcastDraft)
deriving DecidableEq, Repr

/-- Embeds `cb_handler`: callback-query dispatch on `query.data`.  The
`link_del:` branch only mutates the promo-link store (external), never the
session.  On `preview_send` the source calls `do_broadcast` with the
current draft and only afterwards resets the session, so the dispatched
draft is the pre-reset one. -/
def cb_handler (s : Session) (dat : String) (isadm : Bool) : Session × CbEffect :=
  if dat = "link_add" then
    if ¬ isadm then (s, CbEffect.noop)
    else ({ s with step := Step.ADD_LINK_TITLE }, CbEffect.noop)
  else if pyStartsWith dat "link_del:" then
    (s, CbEffect.noop)
  else if s.step = Step.PREVIEW then
    if dat = "preview_send" then
      ({ s with step := Step.IDLE, draft := {} }, CbEffect.dispatch s.draft)
    else if dat = "preview_restart" then
      ({ s with step := Step.ASK_TEXT, draft := {} }, CbEffect.noop)
    else if dat = "preview_cancel" then
      ({ s with step := Step.IDLE, draft := {} }, CbEffect.noop)
    else (s, CbEffect.noop)
  else if s.step = Step.ASK_ADD_BUTTON then
    if dat = "btn_yes" then
      ({ s with step := Step.ASK_BUTTON_TEXT }, CbEffect.noop)
    else if dat = "btn_no" then
      ({ s with step := Step.PREVIEW }, CbEffect.noop)
    else (s, CbEffect.noop)
  else (s, CbEffect.noop)

/-! ### Fan-out dispatcher (`do_broadcast`) -/

/-- One rendered transport call: the shape (`send_photo` / `send_video` /
`send_animation` / `send_message`), the recipient, the caption or body
text, and the inline keyboard rows. -/
inductive SendCall
  | send_photo (chat_id : Int) (file_id : String) (caption : String) (kb : List (List ButtonDef))
  | send_video (chat_id : Int) (file_id : String) (caption : String) (kb : List (List ButtonDef))
  | send_animation (chat_id : Int) (file_id : String) (caption : String) (kb : List (List ButtonDef))
  | send_message (chat_id : Int) (text : String) (kb : List (List ButtonDef))
deriving DecidableEq, Repr

/-- The inline keyboard built once per broadcast:
`[[InlineKeyboardButton(b.text, url=b.url)] for b in draft.buttons]` if the
button list is truthy, else the empty keyboard. -/
def broadcast_kb (d : BroadcastDraft) : List (List ButtonDef) :=
  if d.buttons = [] then [] else d.buttons.map (fun b => [b])

/-- The single transport call rendered for one recipient inside the
`do_broadcast` loop (the `if draft.photo_file_id / elif video / elif
animation / else` chain, Python truthiness on the optional ids). -/
def render_call (d : BroadcastDraft) (chat_id : Int) : SendCall :=
  if pyTruthy d.photo_file_id then
    SendCall.send_photo chat_id (d.photo_file_id.getD "") d.text (broadcast_kb d)
  else if pyTruthy d.video_file_id then
    SendCall.send_video chat_id (d.video_file_id.getD "") d.text (broadcast_kb d)
  else if pyTruthy d.animation_file_id then
    SendCall.send_animation chat_id (d.animation_file_id.getD "") d.text (broadcast_kb d)
  else
    SendCall.send_message chat_id d.text (broadcast_kb d)

/-- The per-recipient loop of `do_broadcast`.  `transport i` tells whether
the `i`-th send attempt succeeds (`try` branch, `sent += 1`) or raises a
transport error (`except` branch, `failed += 1`); either way the loop
continues with the next recipient.  Returns `(sent, failed, trace)` where
`trace` is the list of rendered calls in issue order. -/
def do_broadcast_loop (d : BroadcastDraft) (transport : Nat → Bool) :
    Nat → List Int → Nat × Nat × List SendCall
  | _, [] => (0, 0, [])
  | i, chat_id :: rest =>
    let call := render_call d chat_id
    let r := do_broadcast_loop d transport (i + 1) rest
    if transport i then (r.1 + 1, r.2.1, call :: r.2.2)
    else (r.1, r.2.1 + 1, call :: r.2.2)

/-- Embeds `do_broadcast`: iterate the recipient list (as returned by
`get_all_user_ids`) in order, one rendered call each, tallying
sent/failed. -/
def do_broadcast (d : BroadcastDraft) (targets : List Int) (transport : Nat → Bool) :
    Nat × Nat × List SendCall :=
  do_broadcast_loop d transport 0 targets

/-! ### Operations and reachability -/

/-- One operator-driven operation on a session: an incoming message, a
callback query, or one of the two session-mutating commands. -/
inductive Op
  | msg (m : Msg)
  | cb (dat : String) (isadm : Bool)
  | broadcast_command
  | setting_command

/-- Apply one operation to a session (session component only). -/
def applyOp (s : Session) : Op → Session
  | Op.msg m => (handle_message s m).1
  | Op.cb dat isadm => (cb_handler s dat isadm).1
  | Op.broadcast_command => broadcast_cmd s
  | Op.setting_command => setting_cmd s

/-- Sessions reachable from the fresh session `ensure_session` creates. -/
inductive Reachable : Session → Prop
  | init : Reachable {}
  | step {s : Session} : Reachable s → (op : Op) → Reachable (applyOp s op)

/-! ### Dispatcher lemmas -/

/-- Helper: counting behavior of the dispatcher loop, generalized over the
starting call index. -/
theorem do_broadcast_loop_spec (d : BroadcastDraft) (f : Nat → Bool) :
    ∀ (ts : List Int) (i : Nat),
      (do_broadcast_loop d f i ts).1
          = ((List.range' i ts.length).filter (fun j => f j)).length
        ∧ (do_broadcast_loop d f i ts).2.1
          = ((List.range' i ts.length).filter (fun j => !f j)).length
        ∧ (do_broadcast_loop d f i ts).2.2 = ts.map (render_call d)
  | [], i => by simp [do_broadcast_loop]
  | t :: ts, i => by
    obtain ⟨h1, h2, h3⟩ := do_broadcast_loop_spec d f ts (i + 1)
    by_cases hf : f i = true <;>
      simp [do_broadcast_loop, hf, h1, h2, h3, List.range'_succ, List.filter_cons]

/-- C1: for every draft and recipient list of length N (N = 0 included)
the dispatcher returns a tally with sent + failed = N; each recipient is
counted exactly once, as sent exactly when its transport call succeeds and
as failed exactly when the transport reports an error, and the run is
never aborted (the trace and tally cover all N recipients). -/
theorem dispatch_tally (d : BroadcastDraft) (targets : List Int) (transport : Nat → Bool) :
    (do_broadcast d targets transport).1 + (do_broadcast d targets transport).2.1
        = targets.length
      ∧ (do_broadcast d targets transport).1
        = ((List.range targets.length).filter (fun i => transport i)).length
      ∧ (do_broadcast d targets transport).2.1
        = ((List.range targets.length).filter (fun i => !transport i)).length := by
  obtain ⟨h1, h2, h3⟩ := do_broadcast_loop_spec d transport targets 0
  rw [do_broadcast, h1, h2, List.range_eq_range']
  refine ⟨?_, rfl, rfl⟩
  have split : ∀ (l : List Nat),
      (l.filter (fun j => transport j)).length
          + (l.filter (fun j => !transport j)).length = l.length := by
    intro l
    induction l with
    | nil => simp
    | cons x xs ih =>
      by_cases hx : transport x = true <;> simp [List.filter_cons, hx] <;> omega
  rw [split, List.length_range']


/-- Concrete draft with a photo attachment and one button, used as a
dispatcher test input. -/
def exPhotoDraft : BroadcastDraft := {
  text := "hi",
  photo_file_id := some "P",
  buttons := [{ text := some "Visit", url := "https://example.com" }] }

/-- C2: the dispatcher issues exactly one transport call per recipient, in
list order with no reordering or deduplication (the trace is the map of
`render_call` over the recipient list); the shape of each call is chosen
by the draft's media variant — plain message when no media is set, else
the matching photo/video/animation send — always carrying the draft text
as body/caption and the draft buttons as the inline keyboard (the empty
keyboard when there are no buttons). -/
theorem dispatch_renders_in_order (d : BroadcastDraft) (targets : List Int)
    (transport : Nat → Bool) :
    (do_broadcast d targets transport).2.2 = targets.map (render_call d)
      ∧ broadcast_kb d = d.buttons.map (fun b => [b])
      ∧ (∀ cid : Int, d.photo_file_id = none → d.video_file_id = none →
          d.animation_file_id = none →
          render_call d cid = SendCall.send_message cid d.text (broadcast_kb d))
      ∧ (∀ (cid : Int) (p : String), d.photo_file_id = some p → p ≠ "" →
          render_call d cid = SendCall.send_photo cid p d.text (broadcast_kb d))
      ∧ (∀ (cid : Int) (v : String), d.photo_file_id = none → d.video_file_id = some v →
          v ≠ "" →
          render_call d cid = SendCall.send_video cid v d.text (broadcast_kb d))
      ∧ (∀ (cid : Int) (a : String), d.photo_file_id = none → d.video_file_id = none →
          d.animation_file_id = some a → a ≠ "" →
          render_call d cid = SendCall.send_animation cid a d.text (broadcast_kb d)) := by
  refine ⟨(do_broadcast_loop_spec d transport targets 0).2.2, ?_, ?_, ?_, ?_, ?_⟩
  · by_cases hb : d.buttons = [] <;> simp [broadcast_kb, hb]
  · intro cid hp hv ha
    simp [render_call, pyTruthy, hp, hv, ha]
  · intro cid p hp hne
    simp [render_call, pyTruthy, hp, hne]
  · intro cid v hp hv hne
    simp [render_call, pyTruthy, hp, hv, hne]
  · intro cid a hp hv ha hne
    simp [render_call, pyTruthy, hp, hv, ha, hne]

/-- Witness for `dispatch_renders_in_order`, instantiating each media
variant at a concrete draft and recipient list. -/
theorem dispatch_renders_in_order_witness :
    (do_broadcast exPhotoDraft [1, 2] (fun _ => true)).2.2
      = [SendCall.send_photo 1 "P" "hi" [[{ text := some "Visit", url := "https://example.com" }]],
         SendCall.send_photo 2 "P" "hi" [[{ text := some "Visit", url := "https://example.com" }]]]
      ∧ render_call { text := "m" } 7 = SendCall.send_message 7 "m" []
      ∧ render_call { text := "v", video_file_id := some "V" } 7
        = SendCall.send_video 7 "V" "v" []
      ∧ render_call { text := "a", animation_file_id := some "A" } 7
        = SendCall.send_animation 7 "A" "a" [] := by
  refine ⟨?_, ?_, ?_, ?_⟩
  · rw [(dispatch_renders_in_order exPhotoDraft [1, 2] (fun _ => true)).1]
    have h := (dispatch_renders_in_order exPhotoDraft [1, 2] (fun _ => true)).2.2.2.1
    simp only [List.map]
    rw [h 1 "P" rfl (by decide), h 2 "P" rfl (by decide)]
    decide
  · exact ((dispatch_renders_in_order { text := "m" } [] (fun _ => true)).2.2.1
      7 rfl rfl rfl).trans (by decide)
  · exact ((dispatch_renders_in_order { text := "v", video_file_id := some "V" } []
      (fun _ => true)).2.2.2.2.1 7 "V" rfl rfl (by decide)).trans (by decide)
  · exact ((dispatch_renders_in_order { text := "a", animation_file_id := some "A" } []
      (fun _ => true)).2.2.2.2.2 7 "A" rfl rfl rfl (by decide)).trans (by decide)

/-! ### Preview callbacks -/

/-- C7: from a session whose step is `PREVIEW`, the `preview_send`
callback ("confirm") invokes the dispatcher with the current draft and
resets the session to `IDLE` with a fresh empty draft; `preview_restart`
("restart") resets the draft and moves to `ASK_TEXT`; `preview_cancel`
("cancel") resets the draft and moves to `IDLE` — for every prior draft
content, so cancel always yields `IDLE` with an empty draft. -/
theorem preview_callbacks (s : Session) (adm : Bool) (h : s.step = Step.PREVIEW) :
    cb_handler s "preview_send" adm
        = ({ s with step := Step.IDLE, draft := {} }, CbEffect.dispatch s.draft)
      ∧ cb_handler s "preview_restart" adm
        = ({ s with step := Step.ASK_TEXT, draft := {} }, CbEffect.noop)
      ∧ cb_handler s "preview_cancel" adm
        = ({ s with step := Step.IDLE, draft := {} }, CbEffect.noop) := by
  refine ⟨?_, ?_, ?_⟩ <;>
    · unfold cb_handler
      rw [if_neg (by decide), if_neg (by decide), if_pos h]
      simp

/-- Witness for `preview_callbacks` at a concrete preview-stage session. -/
theorem preview_callbacks_witness :
    cb_handler { step := Step.PREVIEW, draft := { text := "Hello" } } "preview_cancel" true
      = ({ step := Step.IDLE }, CbEffect.noop) := by
  have h := (preview_callbacks { step := Step.PREVIEW, draft := { text := "Hello" } }
    true rfl).2.2
  rw [h]

/-! ### URL validation and button commit -/

/-- C4: at `ASK_BUTTON_URL` an input is accepted exactly when the
stripped, lowercased text literally starts with "http://" or "https://"
(so no further URL well-formedness is enforced); on rejection the session
is returned unchanged with a re-prompt.  The concrete conjuncts check the
claim's examples: "https://example.com" accepted, "ftp://x",
"example.com" and "" rejected with the step still `ASK_BUTTON_URL`. -/
theorem ask_button_url_validation (s : Session) (m : Msg) (t : String)
    (hstep : s.step = Step.ASK_BUTTON_URL) (htext : m.text = some t) :
    ((handle_message s m).1.step = Step.ASK_ADD_BUTTON
        ↔ (pyStartsWith (pyLower (pyStrip t)) "http://"
            || pyStartsWith (pyLower (pyStrip t)) "https://") = true)
      ∧ (¬ url_accepts m → handle_message s m = (s, true))
      ∧ (handle_message { step := Step.ASK_BUTTON_URL }
          { text := some "https://example.com" }).1.step = Step.ASK_ADD_BUTTON
      ∧ handle_message { step := Step.ASK_BUTTON_URL } { text := some "ftp://x" }
        = ({ step := Step.ASK_BUTTON_URL }, true)
      ∧ handle_message { step := Step.ASK_BUTTON_URL } { text := some "example.com" }
        = ({ step := Step.ASK_BUTTON_URL }, true)
      ∧ handle_message { step := Step.ASK_BUTTON_URL } { text := some "" }
        = ({ step := Step.ASK_BUTTON_URL }, true) := by
  obtain ⟨st, dr, tb, tl⟩ := s
  simp only [Session.step] at hstep
  subst hstep
  refine ⟨?_, ?_, by decide, by decide, by decide, by decide⟩
  · by_cases hu : url_accepts m
    · simp only [handle_message, if_neg (not_not_intro hu)]
      obtain ⟨h1, h2⟩ := hu
      rw [htext] at h2
      simp only [Option.getD_some] at h2
      rcases h2 with h2 | h2 <;> simp [h2]
    · simp only [handle_message, if_pos hu]
      constructor
      · intro hc
        exact absurd hc (by decide)
      · intro hc
        exfalso
        apply hu
        refine ⟨?_, ?_⟩
        · rw [htext]
          rcases Bool.or_eq_true _ _ |>.mp hc with h | h
          · have : t ≠ "" := by
              intro he
              subst he
              exact absurd h (by decide)
            simp [pyTruthy, this]
          · have : t ≠ "" := by
              intro he
              subst he
              exact absurd h (by decide)
            simp [pyTruthy, this]
        · rw [htext]
          simp only [Option.getD_some]
          exact Bool.or_eq_true _ _ |>.mp hc |>.imp id id
  · intro hu
    simp only [handle_message, if_pos hu]

/-- Witness for `ask_button_url_validation` at a concrete rejected URL. -/
theorem ask_button_url_validation_witness :
    ¬ ((handle_message { step := Step.ASK_BUTTON_URL } { text := some "ftp://x" }).1.step
        = Step.ASK_ADD_BUTTON) := by
  have h := (ask_button_url_validation { step := Step.ASK_BUTTON_URL }
    { text := some "ftp://x" } "ftp://x" rfl rfl).1
  rw [h]
  decide

/-- C5 (amended): at `ASK_BUTTON_URL` with pending label L, an accepted
URL U appends exactly one button with label L and url strip(U) to the end
of `draft.buttons`, clears the pending label and returns the session to
`ASK_ADD_BUTTON`; the claim's round-trip example (label "Visit", url
"https://example.com") is checked concretely. -/
theorem button_url_commit (s : Session) (m : Msg) (L t : String)
    (hstep : s.step = Step.ASK_BUTTON_URL) (hlab : s.temp_button_text = some L)
    (htext : m.text = some t) (hok : url_accepts m) :
    handle_message s m
      = ({ s with
            draft := { s.draft with
                        buttons := s.draft.buttons ++ [{ text := some L, url := pyStrip t }] },
            temp_button_text := none,
            step := Step.ASK_ADD_BUTTON }, true)
      ∧ (handle_message { step := Step.ASK_BUTTON_URL, temp_button_text := some "Visit" }
          { text := some "https://example.com" }).1.draft.buttons
        = [{ text := some "Visit", url := "https://example.com" }]
      ∧ (handle_message { step := Step.ASK_BUTTON_URL, temp_button_text := some "Visit" }
          { text := some "https://example.com" }).1.step = Step.ASK_ADD_BUTTON
      ∧ (handle_message { step := Step.ASK_BUTTON_URL, temp_button_text := some "Visit" }
          { text := some "https://example.com" }).1.temp_button_text = none := by
  obtain ⟨st, dr, tb, tl⟩ := s
  simp only [Session.step] at hstep
  simp only [Session.temp_button_text] at hlab
  subst hstep
  subst hlab
  refine ⟨?_, by decide, by decide, by decide⟩
  simp only [handle_message, if_neg (not_not_intro hok), htext, Option.getD_some]

/-- Witness for `button_url_commit` at the claim's round-trip example. -/
theorem button_url_commit_witness :
    handle_message { step := Step.ASK_BUTTON_URL, temp_button_text := some "Visit" }
        { text := some "https://example.com" }
      = ({ step := Step.ASK_ADD_BUTTON,
           draft := { buttons := [{ text := some "Visit", url := "https://example.com" }] } },
         true) := by
  have h := (button_url_commit { step := Step.ASK_BUTTON_URL, temp_button_text := some "Visit" }
    { text := some "https://example.com" } "Visit" "https://example.com"
    rfl rfl rfl (by decide)).1
  rw [h]
  decide

/-- Counterexample to C5 as stated: for the accepted URL
"https://example.com " (trailing space) the committed button's url is the
stripped string, not the submitted input itself. -/
theorem button_url_commit_counterexample :
    url_accepts { text := some "https://example.com " }
      ∧ (handle_message { step := Step.ASK_BUTTON_URL, temp_button_text := some "Visit" }
          { text := some "https://example.com " }).1.draft.buttons
        ≠ [{ text := some "Visit", url := "https://example.com " }]
      ∧ (handle_message { step := Step.ASK_BUTTON_URL, temp_button_text := some "Visit" }
          { text := some "https://example.com " }).1.draft.buttons
        = [{ text := some "Visit", url := "https://example.com" }] := by
  refine ⟨by decide, by decide, by decide⟩

/-! ### The AskText → confirm run -/

/-- Helper: the "Tidak" callback at `ASK_ADD_BUTTON` moves to `PREVIEW`
and changes nothing else. -/
theorem cb_handler_btn_no (s : Session) (h : s.step = Step.ASK_ADD_BUTTON) :
    cb_handler s "btn_no" true = ({ s with step := Step.PREVIEW }, CbEffect.noop) := by
  unfold cb_handler
  rw [if_neg (by decide), if_neg (by decide), if_neg (by simp [h]), if_pos h,
    if_neg (by decide), if_pos rfl]

/-- Helper: the "confirm" callback at `PREVIEW` dispatches the current
draft and resets the session. -/
theorem cb_handler_preview_send (s : Session) (h : s.step = Step.PREVIEW) :
    cb_handler s "preview_send" true
      = ({ s with step := Step.IDLE, draft := {} }, CbEffect.dispatch s.draft) := by
  unfold cb_handler
  rw [if_neg (by decide), if_neg (by decide), if_pos h, if_pos rfl]

/-- The scenario run for C3: `/broadcast`, a text message, a media-step
message, the "Tidak" (no-button) callback, then the "confirm" callback. -/
def run_confirm (s0 : Session) (m1 m2 : Msg) : Session × CbEffect :=
  cb_handler
    (cb_handler (handle_message (handle_message (broadcast_cmd s0) m1).1 m2).1
      "btn_no" true).1
    "preview_send" true

/-- The text stored by the `ASK_TEXT` handler (main.py 630-631):
`getattr(msg, "text_html", None) or msg.text`, i.e. the message's HTML
rendering when the transport supplies a non-empty one, else the raw
text. -/
def stored_text (m : Msg) : String :=
  match m.text_html with
  | some h => if h = "" then m.text.getD "" else h
  | none => m.text.getD ""

/-- C3 (amended): in `ASK_TEXT`, every accepted non-empty text input (in
particular every non-command token) moves the session to `ASK_MEDIA` and
sets `draft.text` to the stored text — the message's `text_html`
rendering when the transport supplies a non-empty one, else exactly the
raw input, so exactly the input for every plain unformatted message — and
for every valid media-step input the run AskText → AskMedia →
AskAddButton(no) → Preview → confirm hands the dispatcher a draft holding
exactly that stored text and the supplied media, with an empty button
list. -/
theorem confirm_run_draft (s0 : Session) (m1 : Msg) (t : String)
    (h1 : m1.text = some t) (h2 : t ≠ "")
    (h3 : pyLower (pyStrip t) ≠ "/broadcast") :
    (handle_message (broadcast_cmd s0) m1).1.step = Step.ASK_MEDIA
      ∧ (handle_message (broadcast_cmd s0) m1).1.draft = { text := stored_text m1 }
      ∧ (m1.text_html = none → stored_text m1 = t)
      ∧ ∀ m2 : Msg,
          (is_skip_text m2 ∨ m2.photo ≠ [] ∨ m2.video.isSome ∨ m2.animation.isSome) →
          (run_confirm s0 m1 m2).1.step = Step.IDLE
            ∧ (run_confirm s0 m1 m2).1.draft = {}
            ∧ ∃ D : BroadcastDraft,
                (run_confirm s0 m1 m2).2 = CbEffect.dispatch D
                  ∧ D.text = stored_text m1 ∧ D.buttons = []
                  ∧ (is_skip_text m2 → D = { text := stored_text m1 })
                  ∧ (¬ is_skip_text m2 → m2.photo ≠ [] →
                      D = { text := stored_text m1, photo_file_id := m2.photo.getLast? })
                  ∧ (¬ is_skip_text m2 → m2.photo = [] → ∀ v, m2.video = some v →
                      D = { text := stored_text m1, video_file_id := some v })
                  ∧ (¬ is_skip_text m2 → m2.photo = [] → m2.video = none →
                      ∀ a, m2.animation = some a →
                      D = { text := stored_text m1, animation_file_id := some a }) := by
  obtain ⟨st0, dr0, tb0, tl0⟩ := s0
  have hpt : pyTruthy m1.text = true := by
    rw [h1]; simp [pyTruthy, h2]
  have hcond : ¬ (¬ pyTruthy m1.text
      ∨ pyLower (pyStrip (m1.text.getD "")) = "/broadcast") := by
    rw [h1]
    simp only [Option.getD_some]
    rw [h1] at hpt
    simp [hpt, h3]
  have hs1 : (handle_message (broadcast_cmd ⟨st0, dr0, tb0, tl0⟩) m1).1
      = ⟨Step.ASK_MEDIA, { text := stored_text m1 }, tb0, tl0⟩ := by
    simp only [broadcast_cmd, handle_message]
    rw [if_neg hcond]
    cases hth : m1.text_html <;> simp [stored_text, hth]
  have hplain : m1.text_html = none → stored_text m1 = t := by
    intro h4
    simp [stored_text, h4, h1]
  refine ⟨by rw [hs1], by rw [hs1], hplain, ?_⟩
  intro m2 hacc
  -- compute the session after the media step, by cases on the media input
  have key : ∀ D : BroadcastDraft,
      (handle_message ⟨Step.ASK_MEDIA, { text := stored_text m1 }, tb0, tl0⟩ m2).1
        = ⟨Step.ASK_ADD_BUTTON, D, tb0, tl0⟩ →
      (run_confirm ⟨st0, dr0, tb0, tl0⟩ m1 m2).1.step = Step.IDLE
        ∧ (run_confirm ⟨st0, dr0, tb0, tl0⟩ m1 m2).1.draft = {}
        ∧ (run_confirm ⟨st0, dr0, tb0, tl0⟩ m1 m2).2 = CbEffect.dispatch D := by
    intro D hD
    have hrun : run_confirm ⟨st0, dr0, tb0, tl0⟩ m1 m2
        = (⟨Step.IDLE, {}, tb0, tl0⟩, CbEffect.dispatch D) := by
      unfold run_confirm
      rw [hs1, hD, cb_handler_btn_no _ rfl]
      have := cb_handler_preview_send ⟨Step.PREVIEW, D, tb0, tl0⟩ rfl
      simpa using this
    rw [hrun]
    exact ⟨rfl, rfl, rfl⟩
  by_cases hskip : is_skip_text m2
  · have hD : (handle_message ⟨Step.ASK_MEDIA, { text := stored_text m1 }, tb0, tl0⟩ m2).1
        = ⟨Step.ASK_ADD_BUTTON, { text := stored_text m1 }, tb0, tl0⟩ := by
      simp only [handle_message, if_pos hskip]
    obtain ⟨k1, k2, k3⟩ := key _ hD
    exact ⟨k1, k2, { text := stored_text m1 }, k3, rfl, rfl, fun _ => rfl,
      fun hn _ => absurd hskip hn, fun hn _ => absurd hskip hn,
      fun hn _ _ => absurd hskip hn⟩
  · by_cases hph : m2.photo = []
    · cases hv : m2.video with
      | some v =>
        have hD : (handle_message ⟨Step.ASK_MEDIA, { text := stored_text m1 },
            tb0, tl0⟩ m2).1
            = ⟨Step.ASK_ADD_BUTTON,
               { text := stored_text m1, video_file_id := some v }, tb0, tl0⟩ := by
          simp only [handle_message, if_neg hskip, if_neg (not_not_intro hph), hv]
        obtain ⟨k1, k2, k3⟩ := key _ hD
        refine ⟨k1, k2, { text := stored_text m1, video_file_id := some v }, k3, rfl, rfl,
          fun hs => absurd hs hskip, fun _ hp => absurd hph hp, ?_, ?_⟩
        · intro _ _ v' hv'
          cases hv'
          rfl
        · intro _ _ hvn
          exact Option.noConfusion hvn
      | none =>
        cases ha : m2.animation with
        | some a =>
          have hD : (handle_message ⟨Step.ASK_MEDIA, { text := stored_text m1 },
              tb0, tl0⟩ m2).1
              = ⟨Step.ASK_ADD_BUTTON,
                 { text := stored_text m1, animation_file_id := some a }, tb0, tl0⟩ := by
            simp only [handle_message, if_neg hskip, if_neg (not_not_intro hph), hv, ha]
          obtain ⟨k1, k2, k3⟩ := key _ hD
          refine ⟨k1, k2, { text := stored_text m1, animation_file_id := some a }, k3,
            rfl, rfl, fun hs => absurd hs hskip, fun _ hp => absurd hph hp, ?_, ?_⟩
          · intro _ _ v' hv'
            exact Option.noConfusion hv'
          · intro _ _ _ a' ha'
            cases ha'
            rfl
        | none =>
          exfalso
          rcases hacc with h | h | h | h
          · exact hskip h
          · exact h hph
          · rw [hv] at h; exact absurd h (by decide)
          · rw [ha] at h; exact absurd h (by decide)
    · have hD : (handle_message ⟨Step.ASK_MEDIA, { text := stored_text m1 },
          tb0, tl0⟩ m2).1
          = ⟨Step.ASK_ADD_BUTTON,
             { text := stored_text m1, photo_file_id := m2.photo.getLast? }, tb0, tl0⟩ := by
        simp only [handle_message, if_neg hskip, if_pos hph]
      obtain ⟨k1, k2, k3⟩ := key _ hD
      exact ⟨k1, k2, { text := stored_text m1, photo_file_id := m2.photo.getLast? },
        k3, rfl, rfl, fun hs => absurd hs hskip, fun _ _ => rfl,
        fun _ hp => absurd hp hph, fun _ hp => absurd hp hph⟩

/-- Witness for `confirm_run_draft` on the run "Hello", "skip", Tidak,
confirm: the dispatcher receives exactly the text-only draft. -/
theorem confirm_run_draft_witness :
    (run_confirm {} { text := some "Hello" } { text := some "skip" }).2
      = CbEffect.dispatch { text := "Hello" } := by
  obtain ⟨-, -, hplain, h⟩ := confirm_run_draft {} { text := some "Hello" } "Hello"
    rfl (by decide) (by decide)
  obtain ⟨-, -, D, hD, -, -, hskip, -⟩ := h { text := some "skip" } (Or.inl (by decide))
  rw [hD, hskip (by decide), hplain rfl]

/-- Counterexample to C3 as stated: for a rendered message — raw text
"A & B" with HTML rendering "A &amp; B", as the transport produces for any
text containing markup-escaped characters — `ASK_TEXT` accepts the input
but stores the rendering, which is not "exactly that input". -/
theorem confirm_run_draft_counterexample :
    (handle_message (broadcast_cmd {})
        { text := some "A & B", text_html := some "A &amp; B" }).1.step = Step.ASK_MEDIA
      ∧ (handle_message (broadcast_cmd {})
          { text := some "A & B", text_html := some "A &amp; B" }).1.draft.text
        = "A &amp; B"
      ∧ ¬ (handle_message (broadcast_cmd {})
          { text := some "A & B", text_html := some "A &amp; B" }).1.draft.text
        = "A & B" := by
  exact ⟨by decide, by decide, by decide⟩

/-! ### Reachable-session invariants -/

/-- Number of media fields set on a draft. -/
def mediaCount (d : BroadcastDraft) : Nat :=
  (if d.photo_file_id.isSome then 1 else 0) + (if d.video_file_id.isSome then 1 else 0)
    + (if d.animation_file_id.isSome then 1 else 0)

/-- Helper: one `handle_message` step keeps at most one media field set. -/
theorem handle_message_mediaCount (s : Session) (m : Msg)
    (h : mediaCount s.draft ≤ 1) :
    mediaCount (handle_message s m).1.draft ≤ 1 := by
  obtain ⟨st, dr, tb, tl⟩ := s
  cases st <;>
    simp only [handle_message] <;>
    (repeat' split) <;>
    simp_all [mediaCount]

/-- Helper: one `cb_handler` step keeps at most one media field set. -/
theorem cb_handler_mediaCount (s : Session) (dat : String) (adm : Bool)
    (h : mediaCount s.draft ≤ 1) :
    mediaCount (cb_handler s dat adm).1.draft ≤ 1 := by
  obtain ⟨st, dr, tb, tl⟩ := s
  simp only [cb_handler]
  (repeat' split) <;> simp_all [mediaCount]

/-- Helper: every reachable session's draft has at most one media field
set. -/
theorem reachable_mediaCount (s : Session) (h : Reachable s) :
    mediaCount s.draft ≤ 1 := by
  induction h with
  | init => decide
  | step hr op ih =>
    cases op with
    | msg m => exact handle_message_mediaCount _ m ih
    | cb dat adm => exact cb_handler_mediaCount _ dat adm ih
    | broadcast_command => simp [applyOp, broadcast_cmd, mediaCount]
    | setting_command => simpa [applyOp, setting_cmd, mediaCount] using ih

/-- The pending-label invariant: at `ASK_BUTTON_URL` the pending button
label is non-null, and every committed button carries a non-null label. -/
def labelInv (s : Session) : Prop :=
  (s.step = Step.ASK_BUTTON_URL → s.temp_button_text ≠ none)
    ∧ ∀ b ∈ s.draft.buttons, b.text ≠ none

/-- Helper: one `handle_message` step preserves the pending-label
invariant. -/
theorem handle_message_labelInv (s : Session) (m : Msg) (h : labelInv s) :
    labelInv (handle_message s m).1 := by
  obtain ⟨st, dr, tb, tl⟩ := s
  obtain ⟨h1, h2⟩ := h
  simp only [labelInv] at *
  cases st <;> simp only [handle_message] <;> (repeat' split) <;> simp_all
  -- remaining goal: the commit branch at ASK_BUTTON_URL appends a button
  -- labelled by the (non-null) pending label
  rintro b (hb | rfl)
  · exact h2 b hb
  · exact h1

/-- Helper: one `cb_handler` step preserves the pending-label invariant. -/
theorem cb_handler_labelInv (s : Session) (dat : String) (adm : Bool)
    (h : labelInv s) :
    labelInv (cb_handler s dat adm).1 := by
  obtain ⟨st, dr, tb, tl⟩ := s
  obtain ⟨h1, h2⟩ := h
  simp only [labelInv] at *
  simp only [cb_handler]
  (repeat' split) <;> simp_all

/-- Helper: every reachable session satisfies the pending-label
invariant. -/
theorem reachable_labelInv (s : Session) (h : Reachable s) : labelInv s := by
  induction h with
  | init => exact ⟨by simp, by simp⟩
  | step hr op ih =>
    cases op with
    | msg m => exact handle_message_labelInv _ m ih
    | cb dat adm => exact cb_handler_labelInv _ dat adm ih
    | broadcast_command =>
      exact ⟨fun hc => by simp [applyOp, broadcast_cmd] at hc, by simp [applyOp, broadcast_cmd]⟩
    | setting_command =>
      exact ⟨fun hc => by simp [applyOp, setting_cmd] at hc,
        by simpa [applyOp, setting_cmd] using ih.2⟩

/-- Helper: a truthy optional string holds a non-empty string. -/
theorem pyTruthy_getD {o : Option String} (h : pyTruthy o = true) : o.getD "" ≠ "" := by
  cases o <;> simp_all [pyTruthy]

/-- The non-empty-text invariant: from `ASK_MEDIA` onwards (through the
button sub-loop up to `PREVIEW`) the draft text is non-empty. -/
def textInv (s : Session) : Prop :=
  (s.step = Step.ASK_MEDIA ∨ s.step = Step.ASK_ADD_BUTTON
      ∨ s.step = Step.ASK_BUTTON_TEXT ∨ s.step = Step.ASK_BUTTON_URL
      ∨ s.step = Step.PREVIEW) →
    s.draft.text ≠ ""

/-- Helper: one `handle_message` step preserves the non-empty-text
invariant. -/
theorem handle_message_textInv (s : Session) (m : Msg) (h : textInv s) :
    textInv (handle_message s m).1 := by
  obtain ⟨st, dr, tb, tl⟩ := s
  simp only [textInv] at *
  cases st <;> simp only [handle_message] <;> (repeat' split) <;> simp_all
  -- remaining goals: the ASK_TEXT accept branch stores a non-empty text
  all_goals
    obtain ⟨hc1, -⟩ :=
      ‹pyTruthy m.text = true ∧ ¬pyLower (pyStrip (m.text.getD "")) = "/broadcast"›
  all_goals exact pyTruthy_getD hc1

/-- Helper: one `cb_handler` step preserves the non-empty-text
invariant. -/
theorem cb_handler_textInv (s : Session) (dat : String) (adm : Bool)
    (h : textInv s) :
    textInv (cb_handler s dat adm).1 := by
  obtain ⟨st, dr, tb, tl⟩ := s
  simp only [textInv] at *
  simp only [cb_handler]
  (repeat' split) <;> simp_all

/-- Helper: every reachable session satisfies the non-empty-text
invariant. -/
theorem reachable_textInv (s : Session) (h : Reachable s) : textInv s := by
  induction h with
  | init => intro hc; simp at hc
  | step hr op ih =>
    cases op with
    | msg m => exact handle_message_textInv _ m ih
    | cb dat adm => exact cb_handler_textInv _ dat adm ih
    | broadcast_command => intro hc; simp [applyOp, broadcast_cmd] at hc
    | setting_command =>
      intro hc
      simp only [applyOp, setting_cmd] at hc ⊢
      exact absurd hc (by simp)

/-- C6 (amended): setting any one of photo/video/animation at `ASK_MEDIA`
stores that reference and clears the other two, so at most one of the
three media fields is non-null in any reachable session (exactly one once
a media has been set, zero before any is set or after the draft is
reset). -/
theorem media_exclusive :
    (∀ s : Session, Reachable s → mediaCount s.draft ≤ 1)
      ∧ (∀ (s : Session) (m : Msg), s.step = Step.ASK_MEDIA → ¬ is_skip_text m →
          m.photo ≠ [] →
          (handle_message s m).1.draft.photo_file_id = m.photo.getLast?
            ∧ (handle_message s m).1.draft.video_file_id = none
            ∧ (handle_message s m).1.draft.animation_file_id = none)
      ∧ (∀ (s : Session) (m : Msg) (v : String), s.step = Step.ASK_MEDIA →
          ¬ is_skip_text m → m.photo = [] → m.video = some v →
          (handle_message s m).1.draft.video_file_id = some v
            ∧ (handle_message s m).1.draft.photo_file_id = none
            ∧ (handle_message s m).1.draft.animation_file_id = none)
      ∧ (∀ (s : Session) (m : Msg) (a : String), s.step = Step.ASK_MEDIA →
          ¬ is_skip_text m → m.photo = [] → m.video = none → m.animation = some a →
          (handle_message s m).1.draft.animation_file_id = some a
            ∧ (handle_message s m).1.draft.photo_file_id = none
            ∧ (handle_message s m).1.draft.video_file_id = none) := by
  refine ⟨reachable_mediaCount, ?_, ?_, ?_⟩
  · intro s m hstep hskip hph
    obtain ⟨st, dr, tb, tl⟩ := s
    simp only [Session.step] at hstep
    subst hstep
    simp only [handle_message, if_neg hskip, if_pos hph]
    exact ⟨trivial, trivial, trivial⟩
  · intro s m v hstep hskip hph hv
    obtain ⟨st, dr, tb, tl⟩ := s
    simp only [Session.step] at hstep
    subst hstep
    simp only [handle_message, if_neg hskip, if_neg (not_not_intro hph), hv]
    exact ⟨trivial, trivial, trivial⟩
  · intro s m a hstep hskip hph hv ha
    obtain ⟨st, dr, tb, tl⟩ := s
    simp only [Session.step] at hstep
    subst hstep
    simp only [handle_message, if_neg hskip, if_neg (not_not_intro hph), hv, ha]
    exact ⟨trivial, trivial, trivial⟩

/-- Witness for `media_exclusive`: a photo is replaced by a video, which
clears the photo reference (the claim's own example). -/
theorem media_exclusive_witness :
    (handle_message
        { step := Step.ASK_MEDIA, draft := { text := "Hello", photo_file_id := some "P" } }
        { video := some "V" }).1.draft.video_file_id = some "V"
      ∧ (handle_message
          { step := Step.ASK_MEDIA, draft := { text := "Hello", photo_file_id := some "P" } }
          { video := some "V" }).1.draft.photo_file_id = none := by
  obtain ⟨k1, k2, -⟩ := media_exclusive.2.2.1
    { step := Step.ASK_MEDIA, draft := { text := "Hello", photo_file_id := some "P" } }
    { video := some "V" } "V" rfl (by decide) rfl rfl
  exact ⟨k1, k2⟩

/-- A concrete reachable state refuting the claim "exactly one of the
three media fields is non-null at a time": after /broadcast, "Hello",
"skip" the session is past `ASK_MEDIA` with all three media fields null. -/
def zeroMediaState : Session :=
  applyOp (applyOp (applyOp {} Op.broadcast_command) (Op.msg { text := some "Hello" }))
    (Op.msg { text := some "skip" })

/-- Counterexample to C6 as stated: a reachable session (indeed one past
the media step) whose draft has zero non-null media fields, so "exactly
one non-null at a time" fails; only "at most one" holds. -/
theorem media_exclusive_counterexample :
    Reachable zeroMediaState
      ∧ zeroMediaState.step = Step.ASK_ADD_BUTTON
      ∧ mediaCount zeroMediaState.draft = 0 := by
  refine ⟨?_, by decide, by decide⟩
  exact Reachable.step
    (Reachable.step (Reachable.step Reachable.init Op.broadcast_command)
      (Op.msg { text := some "Hello" }))
    (Op.msg { text := some "skip" })

/-- C9: in every session reachable from a fresh session, whenever the step
is `ASK_BUTTON_URL` the pending button label `temp_button_text` is
non-null (restarting mid-flow with /broadcast does not clear it, but the
only entry into `ASK_BUTTON_URL` is the `ASK_BUTTON_TEXT` handler, which
sets it); hence every committed button carries a non-null label. -/
theorem pending_label_nonnull (s : Session) (h : Reachable s) :
    (s.step = Step.ASK_BUTTON_URL → s.temp_button_text ≠ none)
      ∧ ∀ b ∈ s.draft.buttons, b.text ≠ none :=
  reachable_labelInv s h

/-- Witness for `pending_label_nonnull` at a concrete reachable
`ASK_BUTTON_URL` session (reached via /broadcast, "Hello", "skip",
Ya-callback, label "Visit"). -/
theorem pending_label_nonnull_witness :
    (applyOp (applyOp (applyOp (applyOp (applyOp {} Op.broadcast_command)
        (Op.msg { text := some "Hello" })) (Op.msg { text := some "skip" }))
        (Op.cb "btn_yes" true)) (Op.msg { text := some "Visit" })).step
        = Step.ASK_BUTTON_URL
      ∧ (applyOp (applyOp (applyOp (applyOp (applyOp {} Op.broadcast_command)
          (Op.msg { text := some "Hello" })) (Op.msg { text := some "skip" }))
          (Op.cb "btn_yes" true)) (Op.msg { text := some "Visit" })).temp_button_text
        ≠ none := by
  have hr : Reachable (applyOp (applyOp (applyOp (applyOp (applyOp {}
      Op.broadcast_command) (Op.msg { text := some "Hello" }))
      (Op.msg { text := some "skip" })) (Op.cb "btn_yes" true))
      (Op.msg { text := some "Visit" })) :=
    Reachable.step (Reachable.step (Reachable.step (Reachable.step
      (Reachable.step Reachable.init Op.broadcast_command)
      (Op.msg { text := some "Hello" })) (Op.msg { text := some "skip" }))
      (Op.cb "btn_yes" true)) (Op.msg { text := some "Visit" })
  exact ⟨by decide, (pending_label_nonnull _ hr).1 (by decide)⟩

/-- C10: every draft the state machine hands to the dispatcher on confirm
has non-empty text — the only path to `PREVIEW` goes through `ASK_TEXT`,
which rejects empty text, and send/restart/cancel replace the draft
wholesale — so the dispatched draft always satisfies (more than) the
sendability precondition. -/
theorem dispatched_text_nonempty (s : Session) (h : Reachable s)
    (dat : String) (adm : Bool) (s2 : Session) (D : BroadcastDraft)
    (hcb : cb_handler s dat adm = (s2, CbEffect.dispatch D)) :
    D.text ≠ "" := by
  have htext := reachable_textInv s h
  unfold cb_handler at hcb
  repeat' split at hcb
  all_goals injection hcb with hcb1 hcb2
  all_goals first
    | exact CbEffect.noConfusion hcb2
    | · injection hcb2 with hD
        subst hD
        exact htext (Or.inr (Or.inr (Or.inr (Or.inr (by assumption)))))

/-- Witness for `dispatched_text_nonempty` at a concrete confirm on a
reachable preview session. -/
theorem dispatched_text_nonempty_witness :
    (cb_handler (applyOp (applyOp (applyOp (applyOp {} Op.broadcast_command)
        (Op.msg { text := some "Hello" })) (Op.msg { text := some "skip" }))
        (Op.cb "btn_no" true)) "preview_send" true).2
      = CbEffect.dispatch { text := "Hello" }
      ∧ ("Hello" : String) ≠ "" := by
  have hr : Reachable (applyOp (applyOp (applyOp (applyOp {} Op.broadcast_command)
      (Op.msg { text := some "Hello" })) (Op.msg { text := some "skip" }))
      (Op.cb "btn_no" true)) :=
    Reachable.step (Reachable.step (Reachable.step
      (Reachable.step Reachable.init Op.broadcast_command)
      (Op.msg { text := some "Hello" })) (Op.msg { text := some "skip" }))
      (Op.cb "btn_no" true)
  refine ⟨by decide, ?_⟩
  exact dispatched_text_nonempty _ hr "preview_send" true { step := Step.IDLE }
    { text := "Hello" } (by decide)

/-! ### Unmatched input -/

/-- Acceptance predicate of `handle_message`: does the message match the
accepted inputs of the session's current step (mirroring the branch
conditions of the source, state by state)?  `PREVIEW` and `IDLE` accept no
message input (their inputs are callbacks and commands). -/
def msg_accepted (s : Session) (m : Msg) : Bool :=
  match s.step with
  | Step.SET_WELCOME =>
    decide (¬ (sanitize_welcome (m.text.getD "") = ""
      ∨ pyStartsWith (sanitize_welcome (m.text.getD "")) "/"
      ∨ pyLower (sanitize_welcome (m.text.getD "")) = "/start"
      ∨ pyLower (sanitize_welcome (m.text.getD "")) = "/setting"))
  | Step.ASK_TEXT =>
    decide (¬ (¬ pyTruthy m.text ∨ pyLower (pyStrip (m.text.getD "")) = "/broadcast"))
  | Step.ASK_MEDIA =>
    decide (is_skip_text m ∨ m.photo ≠ [] ∨ m.video.isSome ∨ m.animation.isSome)
  | Step.ASK_ADD_BUTTON =>
    decide (pyTruthy m.text
      ∧ (pyLower (pyStrip (m.text.getD "")) = "ya"
          ∨ pyLower (pyStrip (m.text.getD "")) = "yes"
          ∨ pyLower (pyStrip (m.text.getD "")) = "y"
          ∨ pyLower (pyStrip (m.text.getD "")) = "tidak"
          ∨ pyLower (pyStrip (m.text.getD "")) = "no"
          ∨ pyLower (pyStrip (m.text.getD "")) = "n"))
  | Step.ASK_BUTTON_TEXT => pyTruthy m.text
  | Step.ASK_BUTTON_URL => decide (url_accepts m)
  | Step.ADD_LINK_TITLE => pyTruthy m.text
  | Step.ADD_LINK_URL => decide (url_accepts m)
  | Step.PREVIEW => false
  | Step.IDLE => false

/-- C8 (amended): for every state and every message input not matching
that state's accepted inputs, handling the input never raises (the
handler is a total function) and leaves the step and the entire session
unchanged; a re-prompt is sent in every state except `ASK_ADD_BUTTON`,
`PREVIEW` and `IDLE`, where the unmatched input is silently ignored (the
Python falls off the end of the handler without replying); there is no
maximum-retry cutoff. -/
theorem unmatched_input_behavior (s : Session) (m : Msg)
    (h : msg_accepted s m = false) :
    (handle_message s m).1 = s
      ∧ ((handle_message s m).2 = true
          ↔ (s.step ≠ Step.ASK_ADD_BUTTON ∧ s.step ≠ Step.PREVIEW
              ∧ s.step ≠ Step.IDLE)) := by
  obtain ⟨st, dr, tb, tl⟩ := s
  cases st <;>
    simp only [msg_accepted, decide_eq_false_iff_not, not_not, not_and, not_or] at h <;>
    simp only [handle_message] <;>
    (repeat' split) <;>
    simp_all

/-- Witness for `unmatched_input_behavior`: a rejected text at `ASK_TEXT`
leaves the session unchanged and does re-prompt. -/
theorem unmatched_input_behavior_witness :
    (handle_message { step := Step.ASK_TEXT } { text := some " /BROADCAST " }).1
        = { step := Step.ASK_TEXT }
      ∧ (handle_message { step := Step.ASK_TEXT } { text := some " /BROADCAST " }).2
        = true := by
  obtain ⟨h1, h2⟩ := unmatched_input_behavior { step := Step.ASK_TEXT }
    { text := some " /BROADCAST " } (by decide)
  exact ⟨h1, h2.mpr (by decide)⟩

/-- Counterexample to C8 as stated: at `ASK_ADD_BUTTON` the unmatched text
"maybe" leaves the session unchanged but produces NO re-prompt (the
handler falls through silently), contradicting "re-prompts the operator in
the same state". -/
theorem unmatched_input_behavior_counterexample :
    msg_accepted { step := Step.ASK_ADD_BUTTON, draft := { text := "Hello" } }
        { text := some "maybe" } = false
      ∧ handle_message { step := Step.ASK_ADD_BUTTON, draft := { text := "Hello" } }
          { text := some "maybe" }
        = ({ step := Step.ASK_ADD_BUTTON, draft := { text := "Hello" } }, false) := by
  exact ⟨by decide, by decide⟩
